import Mathlib

set_option allowUnsafeReducibility true
attribute [semireducible] Rat.add Rat.mul Rat.inv Rat.sub Rat.div

/-!
Shallow embedding of the recommendation engine in `src/recommender.py`.

The engine classifies free text into scenario categories by keyword
counting (`classify_scenario`), and filters/scores/ranks catalog tools
(`recommend`).  Python dictionaries holding tool records are modelled as
structures; fields the code reads with `dict.get` (which tolerates
absence) are `Option`s, fields the code indexes unconditionally
(`tool["scores"]["overall"]`, `tool["scores"]["value"]`) are total.
Python floats are modelled as rationals.  Python's stable `sort`
(`reverse=True`) is modelled by the stable descending insertion sort
`sortDescBy`.
-/

/-- A paid plan, i.e. one entry of `pricing.paid_plans`.  The code reads
the price with `p.get("price", 0)`, so the field is optional. -/
structure PaidPlan where
  price : Option ℚ
deriving DecidableEq

/-- A catalog tool record (one element of `self.tools`).  `category` and
`technical_level` are read with `tool.get(...)` and may be absent;
`free_tier` models `tool.get("pricing", {}).get("free_tier", False)`;
`paid_plans` models `tool.get("pricing", {}).get("paid_plans", [])`;
`scores_overall` / `scores_value` model `tool["scores"]["overall"]` and
`tool["scores"]["value"]`, which the code indexes unconditionally. -/
structure Tool where
  id : String
  name : String
  category : Option String
  scores_overall : ℚ
  scores_value : ℚ
  free_tier : Bool
  paid_plans : List PaidPlan
  technical_level : Option String
deriving DecidableEq

/-- The `ToolResult` dataclass: a scored candidate. -/
structure ToolResult where
  tool : Tool
  score : ℚ
  match_reasons : List String
deriving DecidableEq

/-- The `has_free_tier` property of `ToolResult`. -/
def ToolResult.has_free_tier (r : ToolResult) : Bool :=
  r.tool.free_tier

/-- The `CATEGORY_KEYWORDS` mapping, in declaration order (Python dicts
iterate in insertion order). -/
def CATEGORY_KEYWORDS : List (String × List String) :=
  [("coding", ["代码", "编程", "开发", "debug", "调试", "重构", "API", "程序", "软件", "脚本"]),
   ("writing", ["写作", "文章", "博客", "文案", "内容", "翻译", "邮件", "报告", "文档", "论文"]),
   ("image", ["图片", "图像", "绘图", "设计", "插画", "海报", "视觉", "美术", "生图"]),
   ("audio", ["语音", "音频", "音乐", "配音", "转录", "字幕", "播客", "歌曲"]),
   ("research", ["搜索", "调研", "查找", "信息", "资料", "学术", "分析", "新闻"]),
   ("data", ["数据", "分析", "统计", "图表", "可视化", "Excel", "CSV", "数据库"]),
   ("video", ["视频", "短片", "动画", "影片", "剪辑", "特效"]),
   ("foundation", ["对话", "聊天", "问答", "推理", "通用", "助手"])]

/-- The `BUDGET_LEVELS` mapping. -/
def BUDGET_LEVELS : List (String × ℚ) :=
  [("free", 0), ("low", 20), ("medium", 50), ("high", 999)]

/-- The `TECH_LEVELS` mapping. -/
def TECH_LEVELS : List (String × ℕ) :=
  [("beginner", 1), ("intermediate", 2), ("advanced", 3)]

/-- Lower-case a string, as a character list (`str.lower()`; the
keywords' cased characters are all ASCII). -/
def lowerChars (s : String) : List Char :=
  s.toList.map Char.toLower

/-- Containment of `needle` as a contiguous segment of the haystack. -/
def segIn (needle : List Char) : List Char → Bool
  | [] => needle.isEmpty
  | c :: cs => needle.isPrefixOf (c :: cs) || segIn needle cs

/-- Python's `kw.lower() in text_lower` substring test. -/
def kwIn (kw : String) (textLower : List Char) : Bool :=
  segIn (lowerChars kw) textLower

/-- Presence count of a category's keywords in the lowered text:
`sum(1 for kw in keywords if kw.lower() in text_lower)` — each keyword
counts at most once. -/
def countKw (keywords : List String) (textLower : List Char) : ℕ :=
  (keywords.filter (fun kw => kwIn kw textLower)).length

/-- Stable descending insertion: `x` is placed before the first element
whose key is not greater than `key x`. -/
def insertDescBy {α K : Type} [LinearOrder K] (key : α → K) (x : α) : List α → List α
  | [] => [x]
  | y :: ys => if key y ≤ key x then x :: y :: ys else y :: insertDescBy key x ys

/-- Stable descending sort by a key, modelling Python's stable
`sorted(..., reverse=True)` / `list.sort(..., reverse=True)`. -/
def sortDescBy {α K : Type} [LinearOrder K] (key : α → K) : List α → List α
  | [] => []
  | x :: xs => insertDescBy key x (sortDescBy key xs)

/-- The positive-count score table built by `classify_scenario`'s loop:
one `(category, count)` pair per category whose count is positive, in
declaration order (Python dict insertion order). -/
def scenarioScores (textLower : List Char) : List (String × ℕ) :=
  CATEGORY_KEYWORDS.filterMap (fun ck =>
    let count := countKw ck.2 textLower
    if count > 0 then some (ck.1, count) else none)

/-- `Recommender.classify_scenario`: keyword scores per category, default
`["foundation"]` when nothing matches, else category names sorted by
descending count (stable, hence ties in declaration order). -/
def classify_scenario (text : String) : List String :=
  let textLower := lowerChars text
  let scores := scenarioScores textLower
  if scores.isEmpty then ["foundation"]
  else (sortDescBy (fun p => p.2) scores).map Prod.fst

/-- Python `min(iterable, default=0)` over rationals. -/
def pyMin : List ℚ → ℚ
  | [] => 0
  | x :: xs => xs.foldl min x

/-- The `min_price` computed inside `recommend` (lines 89-92): minimum of
`p.get("price", 0)` over `paid_plans`, default 0. -/
def min_price (t : Tool) : ℚ :=
  pyMin (t.paid_plans.map (fun p => p.price.getD 0))

/-- The category membership test of lines 82-83: `tool.get("category")
not in categories` skips the tool; an absent category never matches. -/
def categoryOk (categories : List String) (t : Tool) : Bool :=
  match t.category with
  | some c => categories.contains c
  | none => false

/-- Line 77: `BUDGET_LEVELS.get(budget, 50)`. -/
def budgetLimitFor (budget : String) : ℚ :=
  (BUDGET_LEVELS.lookup budget).getD 50

/-- Line 78: `TECH_LEVELS.get(tech_level, 1)`. -/
def userTechFor (tech_level : String) : ℕ :=
  (TECH_LEVELS.lookup tech_level).getD 1

/-- Line 103: `TECH_LEVELS.get(tool.get("technical_level", "beginner"), 1)`. -/
def toolTech (t : Tool) : ℕ :=
  (TECH_LEVELS.lookup (t.technical_level.getD "beginner")).getD 1

/-- The per-tool body of `recommend`'s loop (lines 81-113): `none` when
the tool is skipped (`continue`), otherwise the `ToolResult` appended to
`results`.  The score starts at `scores.overall`, is adjusted by the
budget branch (lines 96-100), the technical-level branch (lines
104-108), and the value weighting (line 111). -/
def considerTool (categories : List String) (budget : String) (budget_limit : ℚ)
    (user_tech : ℕ) (tool : Tool) : Option ToolResult :=
  if categoryOk categories tool = false then none
  else if budget = "free" ∧ tool.free_tier = false then none
  else
    let score0 : ℚ := tool.scores_overall
    let step1 : ℚ × List String :=
      if tool.free_tier = false ∧ budget_limit < min_price tool then
        (score0 * (7/10), [])
      else if tool.free_tier = true then
        (score0 + 3/10, ["有免费版"])
      else (score0, [])
    let step2 : ℚ × List String :=
      if toolTech tool ≤ user_tech then
        (step1.1 + 2/10, step1.2 ++ ["适合你的技术水平"])
      else if user_tech + 1 < toolTech tool then
        (step1.1 - 5/10, step1.2)
      else step1
    some ⟨tool, step2.1 + tool.scores_value * (1/10), step2.2⟩

/-- `Recommender.recommend`: filter and score each tool, sort the
surviving candidates by score descending (Python's stable sort), and
return the first `top_n`. -/
def recommend (tools : List Tool) (categories : List String) (budget : String)
    (tech_level : String) (top_n : ℕ) : List ToolResult :=
  let budget_limit := budgetLimitFor budget
  let user_tech := userTechFor tech_level
  let results := tools.filterMap (considerTool categories budget budget_limit user_tech)
  (sortDescBy ToolResult.score results).take top_n

/-- Raw `scores` mapping of a parsed record; every key may be absent. -/
structure RawScores where
  overall : Option ℚ
  ease_of_use : Option ℚ
  quality : Option ℚ
  value : Option ℚ
deriving DecidableEq

/-- A raw record as parsed from the YAML catalog; every required field
may be absent, since `Recommender.__init__` performs no validation. -/
structure RawTool where
  id : Option String
  name : Option String
  category : Option String
  scores : Option RawScores
  technical_level : Option String
deriving DecidableEq

/-- The parsed YAML document; `tools` models `data.get("tools", [])`'s
source key, absent when the document has no `tools` key. -/
structure YamlDoc where
  tools : Option (List RawTool)
deriving DecidableEq

/-- `Recommender.__init__` after path resolution (lines 53-55): the
argument is `Except.error e` when `open` or `yaml.safe_load` raises
(missing or unparsable source) — that exception propagates — and
`Except.ok d` when parsing succeeds, in which case the catalog is
`data.get("tools", [])` with no per-record validation of any kind. -/
def loadCatalog (src : Except String YamlDoc) : Except String (List RawTool) :=
  match src with
  | Except.error e => Except.error e
  | Except.ok d => Except.ok (d.tools.getD [])

/-- The sequence of surviving scored candidates, in catalog order: the
`results` list of `recommend` just before sorting. -/
def survivors (tools : List Tool) (categories : List String) (budget tech_level : String) :
    List ToolResult :=
  tools.filterMap (considerTool categories budget (budgetLimitFor budget) (userTechFor tech_level))

/-- The score after the budget branch (lines 96-100), viewed as a function
of the record. -/
def budgetScore (budget_limit : ℚ) (t : Tool) : ℚ :=
  if t.free_tier = false ∧ budget_limit < min_price t then t.scores_overall * (7/10)
  else if t.free_tier = true then t.scores_overall + 3/10
  else t.scores_overall

/-- The reasons recorded by the budget branch. -/
def budgetReasons (budget_limit : ℚ) (t : Tool) : List String :=
  if t.free_tier = false ∧ budget_limit < min_price t then []
  else if t.free_tier = true then ["有免费版"]
  else []

/-- The technical-level adjustment (lines 104-108): +0.2 bonus, -0.5
penalty, or 0. -/
def techAdj (user_tech : ℕ) (t : Tool) : ℚ :=
  if toolTech t ≤ user_tech then 2/10
  else if user_tech + 1 < toolTech t then -(5/10)
  else 0

/-- The reasons recorded by the technical-level branch. -/
def techReasons (user_tech : ℕ) (t : Tool) : List String :=
  if toolTech t ≤ user_tech then ["适合你的技术水平"] else []

/-- The final score of a surviving candidate, as the sum of the budget
branch result, the technical-level adjustment, and the value weighting. -/
def fullScore (budget_limit : ℚ) (user_tech : ℕ) (t : Tool) : ℚ :=
  budgetScore budget_limit t + techAdj user_tech t + t.scores_value * (1/10)

/-- Every category of `CATEGORY_KEYWORDS` paired with its keyword presence
count in the given text, in declaration order. -/
def categoryCounts (text : String) : List (String × ℕ) :=
  CATEGORY_KEYWORDS.map (fun ck => (ck.1, countKw ck.2 (lowerChars text)))

/-- The categories with a positive keyword count, in declaration order. -/
def positiveCounts (text : String) : List (String × ℕ) :=
  (categoryCounts text).filter (fun p => decide (0 < p.2))

/-- A raw record whose `scores` mapping is entirely absent, violating the
required-field contract (`scores.overall` in particular). -/
def badRaw : RawTool :=
  ⟨some "x-tool", some "X Tool", some "coding", none, none⟩

/-- Sample record: free tier, beginner, category `coding` (tool A of the
spec's worked example). -/
def sampleA : Tool :=
  ⟨"a", "A", some "coding", 8, 7, true, [], some "beginner"⟩

/-- Sample record: no free tier, one 10-dollar plan, beginner, category
`coding` (tool B of the spec's worked example). -/
def sampleB : Tool :=
  ⟨"b", "B", some "coding", 8, 9, false, [⟨some 10⟩], some "beginner"⟩

/-- Sample record: no free tier, one 100-dollar plan, advanced, category
`coding`. -/
def sampleC : Tool :=
  ⟨"c", "C", some "coding", 9, 5, false, [⟨some 100⟩], some "advanced"⟩

/-- The scored candidate `recommend` produces for `sampleA` (worked
example of the spec: 8 + 0.3 + 0.2 + 0.7 = 9.2). -/
def resultA : ToolResult :=
  ⟨sampleA, 46/5, ["有免费版", "适合你的技术水平"]⟩

/-- The scored candidate `recommend` produces for `sampleC` under a
`medium` budget and `beginner` user (9×0.7 − 0.5 + 0.5 = 6.3). -/
def resultC : ToolResult :=
  ⟨sampleC, 63/10, []⟩

/-! ### Properties of the stable descending sort -/

theorem insertDescBy_perm {α K : Type} [LinearOrder K] (key : α → K) (x : α) (l : List α) :
    (insertDescBy key x l).Perm (x :: l) := by
  induction l with
  | nil => simp [insertDescBy]
  | cons y ys ih =>
    simp only [insertDescBy]
    split
    · exact List.Perm.refl _
    · exact (ih.cons y).trans (List.Perm.swap x y ys)

theorem sortDescBy_perm {α K : Type} [LinearOrder K] (key : α → K) (l : List α) :
    (sortDescBy key l).Perm l := by
  induction l with
  | nil => simp [sortDescBy]
  | cons x xs ih =>
    exact (insertDescBy_perm key x (sortDescBy key xs)).trans (ih.cons x)

theorem insertDescBy_pairwise {α K : Type} [LinearOrder K] (key : α → K) (x : α) (l : List α)
    (h : l.Pairwise (fun a b => key b ≤ key a)) :
    (insertDescBy key x l).Pairwise (fun a b => key b ≤ key a) := by
  induction l with
  | nil => simp [insertDescBy]
  | cons y ys ih =>
    rcases List.pairwise_cons.mp h with ⟨hy, hys⟩
    simp only [insertDescBy]
    split
    · rename_i hle
      refine List.pairwise_cons.mpr ⟨?_, h⟩
      intro b hb
      rcases List.mem_cons.mp hb with hb1 | hb2
      · exact hb1 ▸ hle
      · exact le_trans (hy b hb2) hle
    · rename_i hnle
      refine List.pairwise_cons.mpr ⟨?_, ih hys⟩
      intro b hb
      have hb2 : b ∈ x :: ys := (insertDescBy_perm key x ys).mem_iff.mp hb
      rcases List.mem_cons.mp hb2 with hb1 | hb3
      · exact hb1 ▸ le_of_lt (lt_of_not_le hnle)
      · exact hy b hb3

theorem sortDescBy_pairwise {α K : Type} [LinearOrder K] (key : α → K) (l : List α) :
    (sortDescBy key l).Pairwise (fun a b => key b ≤ key a) := by
  induction l with
  | nil => simp [sortDescBy]
  | cons x xs ih => exact insertDescBy_pairwise key x _ ih

theorem insertDescBy_filter_key {α K : Type} [LinearOrder K] (key : α → K) (x : α)
    (l : List α) (k : K) :
    (insertDescBy key x l).filter (fun a => decide (key a = k)) =
      (x :: l).filter (fun a => decide (key a = k)) := by
  induction l with
  | nil => simp [insertDescBy]
  | cons y ys ih =>
    simp only [insertDescBy]
    split
    · rfl
    · rename_i hnle
      have hxy : key x < key y := lt_of_not_le hnle
      by_cases hx : key x = k
      · have hy : ¬ key y = k := by
          intro hyk
          exact absurd hxy (by rw [hx, hyk]; exact lt_irrefl k)
        rw [List.filter_cons, ih]
        simp [List.filter_cons, hx, hy]
      · rw [List.filter_cons, ih]
        simp [List.filter_cons, hx]

theorem sortDescBy_filter_key {α K : Type} [LinearOrder K] (key : α → K) (l : List α) (k : K) :
    (sortDescBy key l).filter (fun a => decide (key a = k)) =
      l.filter (fun a => decide (key a = k)) := by
  induction l with
  | nil => rfl
  | cons x xs ih =>
    simp only [sortDescBy]
    rw [insertDescBy_filter_key, List.filter_cons, List.filter_cons, ih]

/-! ### Characterization of the per-tool scoring -/

theorem considerTool_eq (categories : List String) (budget : String) (budget_limit : ℚ)
    (user_tech : ℕ) (t : Tool) :
    considerTool categories budget budget_limit user_tech t =
      if categoryOk categories t = false then none
      else if budget = "free" ∧ t.free_tier = false then none
      else some ⟨t, fullScore budget_limit user_tech t,
                 budgetReasons budget_limit t ++ techReasons user_tech t⟩ := by
  unfold considerTool fullScore budgetScore budgetReasons techAdj techReasons
  split
  · rfl
  · split
    · rfl
    · rcases Bool.dichotomy t.free_tier with hf | hf <;>
      by_cases hp : budget_limit < min_price t <;>
      by_cases h3 : toolTech t ≤ user_tech <;>
      by_cases h4 : user_tech + 1 < toolTech t <;>
      simp [hf, hp, h3, h4] <;> ring

theorem recommend_eq_sort_take (tools : List Tool) (categories : List String)
    (budget tech_level : String) (top_n : ℕ) :
    recommend tools categories budget tech_level top_n =
      (sortDescBy ToolResult.score (survivors tools categories budget tech_level)).take top_n :=
  rfl

theorem considerTool_some {categories : List String} {budget : String} {budget_limit : ℚ}
    {user_tech : ℕ} {t : Tool} {r : ToolResult}
    (h : considerTool categories budget budget_limit user_tech t = some r) :
    r.tool = t ∧ categoryOk categories t = true ∧
      (budget = "free" → t.free_tier = true) ∧
      r.score = fullScore budget_limit user_tech t ∧
      r.match_reasons = budgetReasons budget_limit t ++ techReasons user_tech t := by
  rw [considerTool_eq] at h
  split at h
  · exact absurd h (by simp)
  · rename_i hcat
    split at h
    · exact absurd h (by simp)
    · rename_i hfree
      injection h with h'
      subst h'
      refine ⟨rfl, by simpa using hcat, ?_, rfl, rfl⟩
      intro hb
      rcases Bool.dichotomy t.free_tier with hff | hft
      · exact absurd ⟨hb, hff⟩ hfree
      · exact hft

theorem mem_recommend {tools : List Tool} {categories : List String} {budget tech_level : String}
    {top_n : ℕ} {r : ToolResult}
    (h : r ∈ recommend tools categories budget tech_level top_n) :
    ∃ t, t ∈ tools ∧
      considerTool categories budget (budgetLimitFor budget) (userTechFor tech_level) t
        = some r := by
  rw [recommend_eq_sort_take] at h
  have h1 := List.mem_of_mem_take h
  have h2 := (sortDescBy_perm ToolResult.score _).mem_iff.mp h1
  exact List.mem_filterMap.mp h2

theorem considerTool_budget_name {categories : List String} {budget budget' : String}
    {budget_limit : ℚ} {user_tech : ℕ} (t : Tool)
    (h : budget ≠ "free") (h' : budget' ≠ "free") :
    considerTool categories budget budget_limit user_tech t =
      considerTool categories budget' budget_limit user_tech t := by
  rw [considerTool_eq, considerTool_eq]
  simp [h, h']

theorem scenarioScores_eq_positive (text : String) :
    scenarioScores (lowerChars text) = positiveCounts text := by
  unfold scenarioScores positiveCounts categoryCounts
  generalize CATEGORY_KEYWORDS = l
  induction l with
  | nil => rfl
  | cons c cs ih =>
    simp only [List.filterMap_cons, List.map_cons, List.filter_cons]
    by_cases h : countKw c.2 (lowerChars text) > 0
    · simp [h, ih]
    · simp [h, ih]

/-! ### The claims -/

/-- C1: for a record whose category matches, the budget adjustment of
`recommend` excludes the record when `budget = "free"` and it has no free
tier; multiplies the score by 0.7 when it has no free tier and its
minimum paid price exceeds the budget ceiling; and when it has a free
tier adds 0.3 and never applies the 0.7 penalty (the produced score is
`overall + 0.3 + techAdj + value*0.1` with no condition on `min_price`).
At the `recommend` level, a `budget = "free"` call only returns
candidates with a free tier. -/
theorem recommend_budget_rule (tools : List Tool) (categories : List String)
    (budget tech_level : String) (top_n : ℕ) (t : Tool) (r : ToolResult)
    (hcat : categoryOk categories t = true) :
    (budget = "free" → t.free_tier = false →
        considerTool categories budget (budgetLimitFor budget) (userTechFor tech_level) t = none)
    ∧ (t.free_tier = false → budget ≠ "free" → budgetLimitFor budget < min_price t →
        considerTool categories budget (budgetLimitFor budget) (userTechFor tech_level) t =
          some ⟨t, t.scores_overall * (7/10) + techAdj (userTechFor tech_level) t
                    + t.scores_value * (1/10),
                techReasons (userTechFor tech_level) t⟩)
    ∧ (t.free_tier = true →
        considerTool categories budget (budgetLimitFor budget) (userTechFor tech_level) t =
          some ⟨t, (t.scores_overall + 3/10) + techAdj (userTechFor tech_level) t
                    + t.scores_value * (1/10),
                "有免费版" :: techReasons (userTechFor tech_level) t⟩)
    ∧ (r ∈ recommend tools categories "free" tech_level top_n → r.has_free_tier = true) := by
  refine ⟨?_, ?_, ?_, ?_⟩
  · intro hb hf
    rw [considerTool_eq]
    simp [hcat, hb, hf]
  · intro hf hb hp
    rw [considerTool_eq]
    simp [hcat, hb, hf, hp, fullScore, budgetScore, budgetReasons]
  · intro hf
    rw [considerTool_eq]
    simp [hcat, hf, fullScore, budgetScore, budgetReasons]
  · intro hr
    obtain ⟨t', ht', hc⟩ := mem_recommend hr
    obtain ⟨hrt, -, hfree, -, -⟩ := considerTool_some hc
    unfold ToolResult.has_free_tier
    rw [hrt]
    exact hfree rfl

/-- C2: the output of `recommend` is the first `min(top_n, #survivors)`
elements of the surviving candidates sorted by final score descending;
the sort is a permutation of the survivors, is sorted descending, and is
stable (candidates of any fixed score keep their catalog-order relative
positions); zero survivors give the empty sequence. -/
theorem recommend_ranking_spec (tools : List Tool) (categories : List String)
    (budget tech_level : String) (top_n : ℕ) (q : ℚ) :
    (recommend tools categories budget tech_level top_n).length
        = min top_n (survivors tools categories budget tech_level).length
    ∧ recommend tools categories budget tech_level top_n
        = (sortDescBy ToolResult.score (survivors tools categories budget tech_level)).take top_n
    ∧ (sortDescBy ToolResult.score (survivors tools categories budget tech_level)).Perm
        (survivors tools categories budget tech_level)
    ∧ (sortDescBy ToolResult.score (survivors tools categories budget tech_level)).Pairwise
        (fun a b => b.score ≤ a.score)
    ∧ (sortDescBy ToolResult.score (survivors tools categories budget tech_level)).filter
        (fun r => decide (r.score = q))
        = (survivors tools categories budget tech_level).filter (fun r => decide (r.score = q))
    ∧ (survivors tools categories budget tech_level = [] →
        recommend tools categories budget tech_level top_n = []) := by
  refine ⟨?_, recommend_eq_sort_take .., sortDescBy_perm .., sortDescBy_pairwise ..,
    sortDescBy_filter_key .., ?_⟩
  · rw [recommend_eq_sort_take, List.length_take,
      (sortDescBy_perm ToolResult.score _).length_eq]
  · intro hs
    rw [recommend_eq_sort_take, hs]
    simp [sortDescBy]

/-- C3 counterexample: a source that parses to a catalog whose only
record has no `scores` mapping at all (hence no `scores.overall`, and no
`id`/`name` checks either) loads successfully — `Recommender.__init__`
performs no per-record validation, so the claim that loading fails with
a `DataLoadError` whenever a record lacks a required field is false. -/
theorem loadCatalog_no_validation :
    loadCatalog (Except.ok ⟨some [badRaw]⟩) = Except.ok [badRaw] ∧ badRaw.scores = none :=
  ⟨rfl, rfl⟩

/-- C3 amended: loading fails exactly when the data source itself fails
(missing or unparsable, the underlying exception propagating — there is
no dedicated `DataLoadError` type); when the source parses, the whole
`tools` list is returned unvalidated, never an error and never a partial
catalog. -/
theorem loadCatalog_amended (e : String) (d : YamlDoc) (l : List RawTool)
    (hd : d.tools = some l) :
    loadCatalog (Except.error e) = Except.error e
    ∧ loadCatalog (Except.ok d) = Except.ok l
    ∧ loadCatalog (Except.ok d) ≠ Except.error e := by
  refine ⟨rfl, ?_, ?_⟩
  · simp [loadCatalog, hd]
  · simp [loadCatalog]

/-- C4: `classify_scenario` counts keyword presence per category (each
keyword at most once), returns `["foundation"]` when no category has a
positive count, and otherwise returns exactly the positive-count
categories ordered by descending count, stably, so that ties keep the
declaration order of `CATEGORY_KEYWORDS`. -/
theorem classify_scenario_spec (text : String) (n : ℕ) :
    (positiveCounts text = [] → classify_scenario text = ["foundation"])
    ∧ (positiveCounts text ≠ [] →
        classify_scenario text
          = (sortDescBy (fun p : String × ℕ => p.2) (positiveCounts text)).map Prod.fst)
    ∧ (sortDescBy (fun p : String × ℕ => p.2) (positiveCounts text)).Perm
        (positiveCounts text)
    ∧ (sortDescBy (fun p : String × ℕ => p.2) (positiveCounts text)).Pairwise
        (fun a b => b.2 ≤ a.2)
    ∧ (sortDescBy (fun p : String × ℕ => p.2) (positiveCounts text)).filter
        (fun p => decide (p.2 = n))
        = (positiveCounts text).filter (fun p => decide (p.2 = n)) := by
  refine ⟨?_, ?_, sortDescBy_perm .., sortDescBy_pairwise .., sortDescBy_filter_key ..⟩
  · intro h
    simp [classify_scenario, scenarioScores_eq_positive, h, List.isEmpty]
  · intro h
    simp only [classify_scenario, scenarioScores_eq_positive]
    rcases hpc : positiveCounts text with _ | ⟨p, ps⟩
    · exact absurd hpc h
    · simp [List.isEmpty]

/-- C5: for every surviving candidate, the technical-level adjustment
adds 0.2 when the tool ordinal (1 by default when `technical_level` is
absent or unrecognized) is at most the user ordinal, subtracts 0.5 when
it exceeds the user ordinal plus one, and is 0 when the tool is exactly
one level above the user. -/
theorem recommend_tech_rule (categories : List String) (budget tech_level : String)
    (t : Tool) (r : ToolResult) (s : String)
    (h : considerTool categories budget (budgetLimitFor budget) (userTechFor tech_level) t
          = some r) :
    r.score = budgetScore (budgetLimitFor budget) t + techAdj (userTechFor tech_level) t
        + t.scores_value * (1/10)
    ∧ (toolTech t ≤ userTechFor tech_level → techAdj (userTechFor tech_level) t = 2/10)
    ∧ (userTechFor tech_level + 1 < toolTech t → techAdj (userTechFor tech_level) t = -(5/10))
    ∧ (toolTech t = userTechFor tech_level + 1 → techAdj (userTechFor tech_level) t = 0)
    ∧ (t.technical_level = none → toolTech t = 1)
    ∧ (t.technical_level = some s → s ≠ "beginner" → s ≠ "intermediate" → s ≠ "advanced" →
        toolTech t = 1) := by
  obtain ⟨-, -, -, hsc, -⟩ := considerTool_some h
  refine ⟨by simpa [fullScore] using hsc, ?_, ?_, ?_, ?_, ?_⟩
  · intro hle
    simp [techAdj, hle]
  · intro hgt
    have h1 : ¬ toolTech t ≤ userTechFor tech_level := by omega
    simp [techAdj, h1, hgt]
  · intro heq
    have h1 : ¬ toolTech t ≤ userTechFor tech_level := by omega
    have h2 : ¬ userTechFor tech_level + 1 < toolTech t := by omega
    simp [techAdj, h1, h2]
  · intro hnone
    simp [toolTech, hnone, TECH_LEVELS, List.lookup]
  · intro hsome h1 h2 h3
    have hb1 : (s == "beginner") = false := beq_eq_false_iff_ne.mpr h1
    have hb2 : (s == "intermediate") = false := beq_eq_false_iff_ne.mpr h2
    have hb3 : (s == "advanced") = false := beq_eq_false_iff_ne.mpr h3
    simp [toolTech, hsome, TECH_LEVELS, List.lookup, hb1, hb2, hb3]

/-- C6: every candidate returned by `recommend` has a category that is a
member of the requested categories; records with a non-matching (or
absent) category are excluded entirely. -/
theorem recommend_category_filter (tools : List Tool) (categories : List String)
    (budget tech_level : String) (top_n : ℕ) (r : ToolResult)
    (h : r ∈ recommend tools categories budget tech_level top_n) :
    ∃ c, r.tool.category = some c ∧ c ∈ categories := by
  obtain ⟨t, ht, hc⟩ := mem_recommend h
  obtain ⟨hrt, hcat, -, -, -⟩ := considerTool_some hc
  rcases hx : t.category with _ | c
  · rw [categoryOk, hx] at hcat
    simp at hcat
  · rw [categoryOk, hx] at hcat
    exact ⟨c, by rw [hrt, hx], by simpa using hcat⟩

/-- C7: the empty text, and any text containing no keyword of any
category, classifies to exactly `["foundation"]`. -/
theorem classify_scenario_default (text : String)
    (h : ∀ ck ∈ CATEGORY_KEYWORDS, ∀ kw ∈ ck.2, kwIn kw (lowerChars text) = false) :
    classify_scenario "" = ["foundation"] ∧ classify_scenario text = ["foundation"] := by
  constructor
  · decide
  · have hs : scenarioScores (lowerChars text) = [] := by
      rw [scenarioScores, List.filterMap_eq_nil_iff]
      intro ck hck
      have hcnt : countKw ck.2 (lowerChars text) = 0 := by
        rw [countKw, List.length_eq_zero, List.filter_eq_nil_iff]
        intro kw hkw
        simp [h ck hck kw hkw]
      simp [hcnt]
    simp [classify_scenario, hs, List.isEmpty]

/-- C8: an unrecognized budget string falls back to the 50 ceiling (the
`medium` default) and an unrecognized tech_level string falls back to
ordinal 1 (the `beginner` default); `recommend` returns the same result
as with the defaults, it does not fail. -/
theorem recommend_unrecognized_defaults (budget tech_level : String) (tools : List Tool)
    (categories : List String) (top_n : ℕ)
    (hb : budget ∉ ["free", "low", "medium", "high"])
    (ht : tech_level ∉ ["beginner", "intermediate", "advanced"]) :
    budgetLimitFor budget = 50 ∧ budgetLimitFor "medium" = 50
    ∧ userTechFor tech_level = 1 ∧ userTechFor "beginner" = 1
    ∧ recommend tools categories budget tech_level top_n
        = recommend tools categories "medium" "beginner" top_n := by
  have hb1 : budget ≠ "free" := fun hh => hb (by simp [hh])
  have hb2 : budget ≠ "low" := fun hh => hb (by simp [hh])
  have hb3 : budget ≠ "medium" := fun hh => hb (by simp [hh])
  have hb4 : budget ≠ "high" := fun hh => hb (by simp [hh])
  have ht1 : tech_level ≠ "beginner" := fun hh => ht (by simp [hh])
  have ht2 : tech_level ≠ "intermediate" := fun hh => ht (by simp [hh])
  have ht3 : tech_level ≠ "advanced" := fun hh => ht (by simp [hh])
  have hbl : budgetLimitFor budget = 50 := by
    simp [budgetLimitFor, BUDGET_LEVELS, List.lookup,
      beq_eq_false_iff_ne.mpr hb1, beq_eq_false_iff_ne.mpr hb2,
      beq_eq_false_iff_ne.mpr hb3, beq_eq_false_iff_ne.mpr hb4]
  have hut : userTechFor tech_level = 1 := by
    simp [userTechFor, TECH_LEVELS, List.lookup,
      beq_eq_false_iff_ne.mpr ht1, beq_eq_false_iff_ne.mpr ht2,
      beq_eq_false_iff_ne.mpr ht3]
  refine ⟨hbl, by decide, hut, by decide, ?_⟩
  have hsv : survivors tools categories budget tech_level
      = survivors tools categories "medium" "beginner" := by
    rw [survivors, survivors, hbl, hut,
      show budgetLimitFor "medium" = 50 by decide,
      show userTechFor "beginner" = 1 by decide,
      show considerTool categories budget 50 1 = considerTool categories "medium" 50 1 from
        funext fun t => considerTool_budget_name t hb1 (by decide)]
  rw [recommend_eq_sort_take, recommend_eq_sort_take, hsv]

/-- C9: `recommend` (like `classify_scenario`, which reads no catalog at
all) leaves the catalog unchanged: every returned candidate carries a
record that is literally an element of the loaded catalog, with all its
fields intact — scores accumulate only in the per-call `ToolResult`. -/
theorem recommend_frame (tools : List Tool) (categories : List String)
    (budget tech_level : String) (top_n : ℕ) (r : ToolResult)
    (h : r ∈ recommend tools categories budget tech_level top_n) :
    r.tool ∈ tools := by
  obtain ⟨t, ht, hc⟩ := mem_recommend h
  obtain ⟨hrt, -, -, -, -⟩ := considerTool_some hc
  exact hrt ▸ ht

/-- C10: with an empty categories list every record fails the category
membership test, so `recommend` returns the empty list and does not
fail. -/
theorem recommend_empty_categories (tools : List Tool) (budget tech_level : String)
    (top_n : ℕ) :
    recommend tools [] budget tech_level top_n = [] := by
  have hs : survivors tools [] budget tech_level = [] := by
    rw [survivors, List.filterMap_eq_nil_iff]
    intro t ht
    rw [considerTool_eq]
    have hc : categoryOk [] t = false := by
      rw [categoryOk]
      cases t.category <;> simp
    simp [hc]
  rw [recommend_eq_sort_take, hs]
  simp [sortDescBy]

/-! ### Witnesses: the claims evaluated at concrete inputs -/

/-- C1 witness: with `budget = "free"` the paid-only `sampleB` is
excluded; with `budget = "medium"` the over-budget paid-only `sampleC`
gets the 0.7 multiplier, the free-tier `sampleA` gets the 0.3 bonus, and
the one candidate of a free-budget run has a free tier. -/
theorem recommend_budget_rule_witness :
    considerTool ["coding"] "free" (budgetLimitFor "free") (userTechFor "beginner") sampleB
        = none
    ∧ considerTool ["coding"] "medium" (budgetLimitFor "medium") (userTechFor "beginner") sampleC
        = some ⟨sampleC, sampleC.scores_overall * (7/10) + techAdj (userTechFor "beginner") sampleC
                  + sampleC.scores_value * (1/10),
              techReasons (userTechFor "beginner") sampleC⟩
    ∧ considerTool ["coding"] "medium" (budgetLimitFor "medium") (userTechFor "beginner") sampleA
        = some ⟨sampleA, (sampleA.scores_overall + 3/10) + techAdj (userTechFor "beginner") sampleA
                  + sampleA.scores_value * (1/10),
              "有免费版" :: techReasons (userTechFor "beginner") sampleA⟩
    ∧ resultA.has_free_tier = true :=
  ⟨(recommend_budget_rule [] ["coding"] "free" "beginner" 3 sampleB resultA (by decide)).1
      rfl (by decide),
   (recommend_budget_rule [] ["coding"] "medium" "beginner" 3 sampleC resultA
      (by decide)).2.1 (by decide) (by decide) (by decide),
   (recommend_budget_rule [] ["coding"] "medium" "beginner" 3 sampleA resultA
      (by decide)).2.2.1 (by decide),
   (recommend_budget_rule [sampleA, sampleB] ["coding"] "free" "beginner" 3 sampleA resultA
      (by decide)).2.2.2 (by decide)⟩

/-- C3 witness: the amended load contract at a concrete failing source
and a concrete catalog holding the invalid record. -/
theorem loadCatalog_amended_witness :
    loadCatalog (Except.error "boom") = Except.error "boom"
    ∧ loadCatalog (Except.ok ⟨some [badRaw]⟩) = Except.ok [badRaw]
    ∧ loadCatalog (Except.ok ⟨some [badRaw]⟩) ≠ Except.error "boom" :=
  loadCatalog_amended "boom" ⟨some [badRaw]⟩ [badRaw] rfl

/-- C5 witness: the advanced tool `sampleC` under a beginner user takes
the −0.5 technical-level penalty on top of the budget-stage score. -/
theorem recommend_tech_rule_witness :
    resultC.score = budgetScore (budgetLimitFor "medium") sampleC
        + techAdj (userTechFor "beginner") sampleC + sampleC.scores_value * (1/10)
    ∧ (toolTech sampleC ≤ userTechFor "beginner" →
        techAdj (userTechFor "beginner") sampleC = 2/10)
    ∧ (userTechFor "beginner" + 1 < toolTech sampleC →
        techAdj (userTechFor "beginner") sampleC = -(5/10))
    ∧ (toolTech sampleC = userTechFor "beginner" + 1 →
        techAdj (userTechFor "beginner") sampleC = 0)
    ∧ (sampleC.technical_level = none → toolTech sampleC = 1)
    ∧ (sampleC.technical_level = some "expert" → "expert" ≠ "beginner" →
        "expert" ≠ "intermediate" → "expert" ≠ "advanced" → toolTech sampleC = 1) :=
  recommend_tech_rule ["coding"] "medium" "beginner" sampleC resultC "expert" (by decide)

/-- C6 witness: the top candidate of a concrete run carries the
requested category `coding`. -/
theorem recommend_category_filter_witness :
    ∃ c, resultA.tool.category = some c ∧ c ∈ ["coding"] :=
  recommend_category_filter [sampleA, sampleB] ["coding"] "medium" "beginner" 3 resultA
    (by decide)

/-- C7 witness: a concrete text containing no keyword of any category
classifies to `["foundation"]`, as does the empty text. -/
theorem classify_scenario_default_witness :
    classify_scenario "" = ["foundation"] ∧ classify_scenario "xyz" = ["foundation"] :=
  classify_scenario_default "xyz" (by decide)

/-- C8 witness: the unrecognized strings "enterprise" and "expert" fall
back to the `medium` ceiling and `beginner` ordinal, and the run equals
the default run. -/
theorem recommend_unrecognized_defaults_witness :
    budgetLimitFor "enterprise" = 50 ∧ budgetLimitFor "medium" = 50
    ∧ userTechFor "expert" = 1 ∧ userTechFor "beginner" = 1
    ∧ recommend [sampleA] ["coding"] "enterprise" "expert" 2
        = recommend [sampleA] ["coding"] "medium" "beginner" 2 :=
  recommend_unrecognized_defaults "enterprise" "expert" [sampleA] ["coding"] 2
    (by decide) (by decide)

/-- C9 witness: the top candidate of a concrete run references a record
of the loaded catalog, unchanged. -/
theorem recommend_frame_witness :
    resultA.tool ∈ [sampleA, sampleB] :=
  recommend_frame [sampleA, sampleB] ["coding"] "medium" "beginner" 3 resultA (by decide)
